import Mathlib

/-!
Verification development for the gold-trading server (crm-live-pro-server).

The embedding models, over exact rational arithmetic:
  - the TTB price-conversion constants and the gold-weight formula of
    src/services/admin/tradingServices.js (the variant at lines 553-1218 of the
    concatenated file, which is the one the claims cite);
  - createTrade and updateTradeStatus from that file, with the database reads
    passed in as the values the queries return and the database writes returned
    as the new documents plus the list of appended ledger entries (the
    mongoose transaction either commits all of them or none, so a returned
    Except.error means no write persisted);
  - checkSufficientBalance from src/services/market/balanceService.js;
  - createTransaction from src/unnamed/part_000;
  - handleWhatsAppWebhook from src/unnamed/part_003.

JavaScript number formatting is modelled exactly: Number.prototype.toFixed(2)
followed by the numeric cast a mongoose Number path performs is rounding to two
decimal places (ties toward plus infinity, as ECMA-262 picks the larger
candidate), parseInt is truncation toward zero, and the "x || y" and "x ? a : b"
idioms use JS truthiness (0 and undefined are falsy).
-/

namespace CrmLive

/-- Constants from tradingServices.js lines 566-568. -/
def TROY_OUNCE_GRAMS : ℚ := 31103 / 1000

def GOLD_CONVERSION_FACTOR : ℚ := 3674 / 1000

def TTB_FACTOR : ℚ := 11664 / 100

/-- The gold-weight value used throughout the trading service:
price / TROY_OUNCE_GRAMS * GOLD_CONVERSION_FACTOR * TTB_FACTOR * volume. -/
def goldWeight (price volume : ℚ) : ℚ :=
  price / TROY_OUNCE_GRAMS * GOLD_CONVERSION_FACTOR * TTB_FACTOR * volume

/-- Number.prototype.toFixed(2) followed by the cast back to a number:
round to 2 decimal places, ties toward plus infinity. -/
def toFixed2 (q : ℚ) : ℚ := (⌊q * 100 + 1 / 2⌋ : ℚ) / 100

/-- parseInt on a (decimal-printed) number: truncation toward zero. -/
def jsTrunc (q : ℚ) : ℤ := if q < 0 then -⌊-q⌋ else ⌊q⌋

/-- JS truthiness of an optional numeric field: undefined and 0 are falsy. -/
def truthy : Option ℚ → Bool
  | none => false
  | some x => if x = 0 then false else true

/-- Order side, the `type` enum of OrderSchema. -/
inductive OrderSide
  | BUY
  | SELL
deriving DecidableEq

/-- The `orderStatus` enum of OrderSchema. -/
inductive OrderStatus
  | PROCESSING
  | EXECUTED
  | CANCELLED
  | CLOSED
  | PENDING
deriving DecidableEq

/-- LPPosition `status`. -/
inductive LPStatus
  | OPEN
  | CLOSED
deriving DecidableEq

/-- The account fields the trading engine reads and writes
(src/models/AccountSchema.js). -/
structure Account where
  AMOUNTFC : ℚ
  METAL_WT : ℚ
  askSpread : ℚ
  bidSpread : ℚ
deriving DecidableEq

/-- The order fields the trading engine reads and writes
(src/models/OrderSchema.js). The schema declares no requiredMargin path, so on
any document saved through it that field is undefined (modelled as none); it is
kept here because updateTradeStatus reads order.requiredMargin with a JS
truthiness test. -/
structure Order where
  orderNo : ℕ
  type : OrderSide
  volume : ℚ
  price : ℚ
  openingPrice : ℚ
  closingPrice : Option ℚ
  closingDate : Option ℤ
  orderStatus : OrderStatus
  profit : ℚ
  comment : Option String
  requiredMargin : Option ℚ
deriving DecidableEq

/-- The LP position fields the trading engine reads and writes. -/
structure LPPosition where
  positionId : ℕ
  type : OrderSide
  volume : ℚ
  entryPrice : ℚ
  currentPrice : ℚ
  closingPrice : Option ℚ
  closeDate : Option ℤ
  status : LPStatus
  profit : ℚ
deriving DecidableEq

inductive EntryType
  | ORDER
  | LP_POSITION
  | TRANSACTION
deriving DecidableEq

inductive EntryNature
  | DEBIT
  | CREDIT
deriving DecidableEq

inductive AssetKind
  | CASH
  | GOLD
deriving DecidableEq

/-- A ledger journal line, keeping the fields the claims are about. The asset
and previousBalance fields are the transactionDetails subrecord and are none on
ORDER and LP_POSITION entries. -/
structure LedgerEntry where
  entryType : EntryType
  entryNature : EntryNature
  amount : ℚ
  runningBalance : ℚ
  asset : Option AssetKind
  previousBalance : Option ℚ
deriving DecidableEq

/-- The request body of createTrade (tradeData), after the controller passes
req.body through. -/
structure TradeRequest where
  orderNo : ℕ
  type : OrderSide
  volume : ℚ
  price : ℚ
  requiredMargin : Option ℚ
deriving DecidableEq

/-- quoteForOpen: BUY adds the account askSpread to the spot, SELL subtracts
the bidSpread (tradingServices.js lines 584-591). -/
def quoteForOpen (a : Account) (side : OrderSide) (spot : ℚ) : ℚ :=
  match side with
  | .BUY => spot + a.askSpread
  | .SELL => spot - a.bidSpread

/-- quoteForClose: closing a BUY subtracts the bidSpread, closing a SELL adds
the askSpread (tradingServices.js lines 917-924). -/
def quoteForClose (a : Account) (side : OrderSide) (spot : ℚ) : ℚ :=
  match side with
  | .BUY => spot - a.bidSpread
  | .SELL => spot + a.askSpread

/-- What createTrade returns (and what its transaction commits). -/
structure OpenResult where
  clientOrder : Order
  lpPosition : LPPosition
  account : Account
  requiredMargin : ℚ
  goldWeightValue : ℚ
  ledgerEntries : List LedgerEntry
deriving DecidableEq

/-- createTrade, tradingServices.js lines 570-808. The account argument is the
result of Account.findById; everything inside one mongoose transaction, so an
error means nothing is written. -/
def createTrade (acct : Option Account) (td : TradeRequest) :
    Except String OpenResult :=
  match acct with
  | none => .error "User account not found"
  | some userAccount =>
    let currentCashBalance := userAccount.AMOUNTFC
    let currentMetalBalance := userAccount.METAL_WT
    let currentPrice := td.price
    let volume := td.volume
    let clientOrderPrice := quoteForOpen userAccount td.type currentPrice
    let goldWeightValue := goldWeight clientOrderPrice volume
    let lpCurrentPrice := goldWeight currentPrice volume
    -- new Order({...tradeData, profit: 0, orderStatus: "PROCESSING",
    -- openingPrice: clientOrderPrice.toFixed(2)}); the strict OrderSchema
    -- drops the unknown requiredMargin path from tradeData.
    let savedOrder : Order :=
      { orderNo := td.orderNo
        type := td.type
        volume := volume
        price := td.price
        openingPrice := toFixed2 clientOrderPrice
        closingPrice := none
        closingDate := none
        orderStatus := .PROCESSING
        profit := 0
        comment := none
        requiredMargin := none }
    let savedLPPosition : LPPosition :=
      { positionId := td.orderNo
        type := td.type
        volume := volume
        entryPrice := currentPrice
        currentPrice := currentPrice
        closingPrice := none
        closeDate := none
        status := .OPEN
        profit := 0 }
    -- parseFloat(tradeData.requiredMargin || 0)
    let requiredMargin : ℚ := (td.requiredMargin).getD 0
    let newCashBalance := currentCashBalance - requiredMargin
    let newMetalBalance :=
      match td.type with
      | .BUY => currentMetalBalance + volume
      | .SELL => currentMetalBalance - volume
    -- Account.findByIdAndUpdate with AMOUNTFC/METAL_WT given as toFixed(2)
    let updatedAccount : Account :=
      { userAccount with
          AMOUNTFC := toFixed2 newCashBalance
          METAL_WT := toFixed2 newMetalBalance }
    let orderLedgerEntry : LedgerEntry :=
      { entryType := .ORDER, entryNature := .DEBIT
        amount := toFixed2 requiredMargin
        runningBalance := toFixed2 newCashBalance
        asset := none, previousBalance := none }
    let lpLedgerEntry : LedgerEntry :=
      { entryType := .LP_POSITION, entryNature := .CREDIT
        amount := toFixed2 lpCurrentPrice
        runningBalance := toFixed2 newCashBalance
        asset := none, previousBalance := none }
    let cashTransactionLedgerEntry : LedgerEntry :=
      { entryType := .TRANSACTION, entryNature := .DEBIT
        amount := toFixed2 requiredMargin
        runningBalance := toFixed2 newCashBalance
        asset := some .CASH, previousBalance := some currentCashBalance }
    let goldTransactionLedgerEntry : LedgerEntry :=
      { entryType := .TRANSACTION
        entryNature := match td.type with | .BUY => .CREDIT | .SELL => .DEBIT
        amount := volume
        runningBalance := toFixed2 newMetalBalance
        asset := some .GOLD, previousBalance := some currentMetalBalance }
    .ok
      { clientOrder := savedOrder
        lpPosition := savedLPPosition
        account := updatedAccount
        requiredMargin := requiredMargin
        goldWeightValue := goldWeightValue
        ledgerEntries :=
          [orderLedgerEntry, lpLedgerEntry, cashTransactionLedgerEntry,
            goldTransactionLedgerEntry] }

/-- The sanitized update body of updateTradeStatus: the whitelist of lines
874-881 keeps exactly orderStatus, closingPrice, closingDate, profit, comment
and price, so the model request carries only those fields. -/
structure UpdateRequest where
  orderStatus : Option OrderStatus
  closingPrice : Option ℚ
  closingDate : Option ℤ
  profit : Option ℚ
  comment : Option String
  price : Option ℚ
deriving DecidableEq

/-- What updateTradeStatus returns (and what its transaction commits): the
saved order, the saved LP position when one was found, the account document
after the close (unchanged when no balance mutation ran), the ledger entries
appended by this call, and the computed client profit. -/
structure CloseResult where
  order : Order
  lpPosition : Option LPPosition
  account : Account
  ledgerEntries : List LedgerEntry
  clientProfit : ℚ
  cash : ℚ
  gold : ℚ
deriving DecidableEq

/-- The closing spot the service works with:
parseFloat(sanitizedData.closingPrice || order.price), line 914. -/
def closeSpot (upd : UpdateRequest) (o : Order) : ℚ :=
  match upd.closingPrice with
  | some cp => if cp = 0 then o.price else cp
  | none => o.price

/-- The settlement credited on close, lines 1059-1061:
order.requiredMargin if truthy, else the closing gold weight for BUY and the
entry gold weight for SELL. -/
def settlementOf (o : Order) (entryGWV closingGWV : ℚ) : ℚ :=
  match o.requiredMargin with
  | some m =>
    if m = 0 then
      match o.type with
      | .BUY => closingGWV
      | .SELL => entryGWV
    else m
  | none =>
    match o.type with
    | .BUY => closingGWV
    | .SELL => entryGWV

/-- updateTradeStatus, tradingServices.js lines 866-1218. The first three
arguments are the results of Order.findOne({_id, adminId}),
Account.findById(order.user) and LPPosition.findOne({positionId: orderNo});
now is the Date the service would use when no closingDate is supplied. An
error return means the transaction aborted and nothing was written. -/
def updateTradeStatus (orderQ : Option Order) (acctQ : Option Account)
    (lpQ : Option LPPosition) (upd : UpdateRequest) (now : ℤ) :
    Except String CloseResult :=
  -- lines 891-893: if closing and no closingDate, default it to now
  let closingDate0 : Option ℤ :=
    if upd.orderStatus = some .CLOSED ∧ upd.closingDate = none then some now
    else upd.closingDate
  -- lines 894-896: mirror a truthy closingPrice into price
  let price0 : Option ℚ :=
    if truthy upd.closingPrice then upd.closingPrice else upd.price
  match orderQ with
  | none => .error "Order not found or unauthorized"
  | some order =>
    match acctQ with
    | none => .error "User account not found"
    | some userAccount =>
      let currentPrice := closeSpot upd order
      let clientClosingPrice := quoteForClose userAccount order.type currentPrice
      -- line 928: when closing, closingPrice becomes the client price (a
      -- string, hence truthy from here on regardless of its value)
      let closingPrice1 : Option ℚ :=
        if upd.orderStatus = some .CLOSED then some clientClosingPrice
        else upd.closingPrice
      let closingPriceTruthy : Bool :=
        if upd.orderStatus = some .CLOSED then true else truthy upd.closingPrice
      let entryPrice := order.openingPrice
      let volume := order.volume
      let entryGoldWeightValue := goldWeight entryPrice volume
      let closingGoldWeightValue := goldWeight currentPrice volume
      let profitValue :=
        match order.type with
        | .BUY => closingGoldWeightValue - entryGoldWeightValue
        | .SELL => entryGoldWeightValue - closingGoldWeightValue
      let clientProfit :=
        match order.type with
        | .BUY => (clientClosingPrice - entryPrice) * volume
        | .SELL => (entryPrice - clientClosingPrice) * volume
      let currentCashBalance := userAccount.AMOUNTFC
      let currentMetalBalance := userAccount.METAL_WT
      -- lines 975-984: copy the sanitized keys onto the order, then, if
      -- closing, overwrite profit with profitValue.toFixed(2)
      let savedOrder : Order :=
        { order with
            orderStatus := (upd.orderStatus).getD order.orderStatus
            closingPrice :=
              match closingPrice1 with
              | some cp => some cp
              | none => order.closingPrice
            closingDate :=
              match closingDate0 with
              | some d => some d
              | none => order.closingDate
            price := (price0).getD order.price
            comment :=
              match upd.comment with
              | some c => some c
              | none => order.comment
            profit :=
              if upd.orderStatus = some .CLOSED then toFixed2 profitValue
              else (upd.profit).getD order.profit }
      match lpQ with
      | none =>
        -- no LP position: only the order write happens; balances and the
        -- ledger are untouched and the transaction still commits
        .ok
          { order := savedOrder
            lpPosition := none
            account := userAccount
            ledgerEntries := []
            clientProfit := clientProfit
            cash := currentCashBalance
            gold := currentMetalBalance }
      | some lpPosition =>
        let lp1 :=
          if closingPriceTruthy then
            { lpPosition with
                closingPrice := some currentPrice
                currentPrice := currentPrice }
          else lpPosition
        let lp2 :=
          match closingDate0 with
          | some d => { lp1 with closeDate := some d }
          | none => lp1
        let savedLP :=
          if upd.orderStatus = some .CLOSED then
            -- lines 1002-1044: LP profit is the spread captured on both legs
            let lpEntryPrice := lpPosition.entryPrice
            let orderOpeningGoldWeightValue := goldWeight entryPrice volume
            let lpEntryGoldWeightValue := goldWeight lpEntryPrice volume
            let orderClosingGoldWeightValue := goldWeight clientClosingPrice volume
            let lpClosingGoldWeightValue := goldWeight currentPrice volume
            let openingDifference :=
              |lpEntryGoldWeightValue - orderOpeningGoldWeightValue|
            let closingDifference :=
              |lpClosingGoldWeightValue - orderClosingGoldWeightValue|
            let lpProfit := openingDifference + closingDifference
            { lp2 with status := .CLOSED, profit := toFixed2 lpProfit }
          else if truthy price0 then { lp2 with currentPrice := currentPrice }
          else lp2
        if upd.orderStatus = some .CLOSED then
          let settlementAmount :=
            settlementOf order entryGoldWeightValue closingGoldWeightValue
          let userProfit := if clientProfit > 0 then clientProfit else 0
          let newCashBalance := currentCashBalance + settlementAmount + userProfit
          let newMetalBalance :=
            match order.type with
            | .BUY => currentMetalBalance - volume
            | .SELL => currentMetalBalance + volume
          -- Account.findByIdAndUpdate with the raw (un-rounded) numbers
          let updatedAccount : Account :=
            { userAccount with
                AMOUNTFC := newCashBalance
                METAL_WT := newMetalBalance }
          let orderLedgerEntry : LedgerEntry :=
            { entryType := .ORDER, entryNature := .CREDIT
              amount :=
                toFixed2 (settlementAmount +
                  (if userProfit > 0 then userProfit else 0))
              runningBalance := toFixed2 newCashBalance
              asset := none, previousBalance := none }
          let lpLedgerEntry : LedgerEntry :=
            { entryType := .LP_POSITION, entryNature := .DEBIT
              amount := toFixed2 settlementAmount
              runningBalance := toFixed2 newCashBalance
              asset := none, previousBalance := none }
          let cashTransactionLedgerEntry : LedgerEntry :=
            { entryType := .TRANSACTION, entryNature := .CREDIT
              amount := toFixed2 settlementAmount
              runningBalance := toFixed2 newCashBalance
              asset := some .CASH, previousBalance := some currentCashBalance }
          let goldTransactionLedgerEntry : LedgerEntry :=
            { entryType := .TRANSACTION
              entryNature := match order.type with | .BUY => .DEBIT | .SELL => .CREDIT
              amount := volume
              runningBalance := newMetalBalance
              asset := some .GOLD, previousBalance := some currentMetalBalance }
          .ok
            { order := savedOrder
              lpPosition := some savedLP
              account := updatedAccount
              ledgerEntries :=
                [orderLedgerEntry, lpLedgerEntry, cashTransactionLedgerEntry,
                  goldTransactionLedgerEntry]
              clientProfit := clientProfit
              cash := newCashBalance
              gold := newMetalBalance }
        else
          .ok
            { order := savedOrder
              lpPosition := some savedLP
              account := userAccount
              ledgerEntries := []
              clientProfit := clientProfit
              cash := currentCashBalance
              gold := currentMetalBalance }

/-- The admin REST sequence the round-trip claims quantify over: createTrade,
then updateTradeStatus on the documents the open committed. -/
def openThenClose (acct : Account) (td : TradeRequest) (upd : UpdateRequest)
    (now : ℤ) : Except String CloseResult :=
  match createTrade (some acct) td with
  | .error e => .error e
  | .ok r =>
    updateTradeStatus (some r.clientOrder) (some r.account)
      (some r.lpPosition) upd now

/-- Cash balance committed by a close, when it succeeded. -/
def closeCash : Except String CloseResult → Option ℚ
  | .ok r => some r.account.AMOUNTFC
  | .error _ => none

/-- Metal balance committed by a close, when it succeeded. -/
def closeMetal : Except String CloseResult → Option ℚ
  | .ok r => some r.account.METAL_WT
  | .error _ => none

/-- Profit persisted on the order by a close, when it succeeded. -/
def closeOrderProfit : Except String CloseResult → Option ℚ
  | .ok r => some r.order.profit
  | .error _ => none

/-- Order status persisted by a close, when it succeeded. -/
def closeOrderStatus : Except String CloseResult → Option OrderStatus
  | .ok r => some r.order.orderStatus
  | .error _ => none

/-- Profit persisted on the LP position by a close, when it succeeded and a
position was found. -/
def closeLpProfit : Except String CloseResult → Option ℚ
  | .ok r => (r.lpPosition).map LPPosition.profit
  | .error _ => none

/-- Client profit computed by a close, when it succeeded. -/
def closeClientProfit : Except String CloseResult → Option ℚ
  | .ok r => some r.clientProfit
  | .error _ => none

/-- Ledger entries appended by a close, when it succeeded. -/
def closeLedger : Except String CloseResult → Option (List LedgerEntry)
  | .ok r => some r.ledgerEntries
  | .error _ => none

/-- Whether a close committed. -/
def closeCommitted : Except String CloseResult → Bool
  | .ok _ => true
  | .error _ => false

/-- Cash balance committed by an open, when it succeeded. -/
def openCash : Except String OpenResult → Option ℚ
  | .ok r => some r.account.AMOUNTFC
  | .error _ => none

/-- Metal balance committed by an open, when it succeeded. -/
def openMetal : Except String OpenResult → Option ℚ
  | .ok r => some r.account.METAL_WT
  | .error _ => none

/-- The numeric report checkSufficientBalance builds when it gets past its
guards (src/services/market/balanceService.js lines 28-59). -/
structure BalanceReport where
  success : Bool
  userBalance : ℚ
  baseAmount : ℚ
  marginAmount : ℚ
  totalAmount : ℚ
  existingVolume : ℤ
  existingAmount : ℚ
  totalNeededAmount : ℚ
  remainingBalance : ℚ
  maxAllowedVolume : ℤ
deriving DecidableEq

/-- The three return shapes of checkSufficientBalance: the missing-account /
falsy-balance guard, the non-positive parsed volume guard, and the full
report. -/
inductive BalanceCheckResult
  | unavailable
  | invalidVolume
  | report (r : BalanceReport)
deriving DecidableEq

/-- The success flag of a checkSufficientBalance result. -/
def BalanceCheckResult.ok : BalanceCheckResult → Bool
  | .unavailable => false
  | .invalidVolume => false
  | .report r => r.success

/-- The maxAllowedVolume field, present only on the full report. -/
def BalanceCheckResult.maxVolume : BalanceCheckResult → Option ℤ
  | .report r => some r.maxAllowedVolume
  | _ => none

/-- Sum of the parseInt-truncated volumes of the PROCESSING orders, the
reduce on line 33 of balanceService.js. -/
def totalProcessingVolume (openOrders : List Order) : ℤ :=
  openOrders.foldl (fun t o => t + jsTrunc o.volume) 0

/-- checkSufficientBalance, src/services/market/balanceService.js lines 15-59.
The acct argument is Account.findById(accountId); openOrders is the result of
Order.find({user, orderStatus: "PROCESSING"}); base and pct are the
BASE_AMOUNT_PER_VOLUME and MINIMUM_BALANCE_PERCENTAGE constants of
utils/constants.js (taken as parameters). parseInt truncation is jsTrunc;
the !account.AMOUNTFC guard makes a zero balance fall into the unavailable
branch. -/
def checkSufficientBalance (acct : Option Account) (openOrders : List Order)
    (volume : ℚ) (base pct : ℚ) : BalanceCheckResult :=
  match acct with
  | none => .unavailable
  | some account =>
    if account.AMOUNTFC = 0 then .unavailable
    else
      let userBalance := account.AMOUNTFC
      let volumeValue : ℤ := jsTrunc volume
      if volumeValue ≤ 0 then .invalidVolume
      else
        let baseAmount := (volumeValue : ℚ) * base
        let marginRequirement := baseAmount * (pct / 100)
        let totalRequiredAmount := baseAmount + marginRequirement
        let existingVolume : ℤ := totalProcessingVolume openOrders
        let existingOrdersAmount := (existingVolume : ℚ) * base
        let existingOrdersMargin := existingOrdersAmount * (pct / 100)
        let totalExistingAmount := existingOrdersAmount + existingOrdersMargin
        let totalNeededAmount := totalRequiredAmount + totalExistingAmount
        let remainingBalance := userBalance - totalNeededAmount
        let maxAllowedVolume : ℤ :=
          ⌊(userBalance - totalExistingAmount) / (base * (1 + pct / 100))⌋
        let isTradeValid := 0 ≤ remainingBalance ∧ 0 < volumeValue
        .report
          { success := decide isTradeValid
            userBalance := userBalance
            baseAmount := baseAmount
            marginAmount := marginRequirement
            totalAmount := totalRequiredAmount
            existingVolume := existingVolume
            existingAmount := totalExistingAmount
            totalNeededAmount := totalNeededAmount
            remainingBalance := remainingBalance
            maxAllowedVolume := maxAllowedVolume }

inductive TxType
  | DEPOSIT
  | WITHDRAWAL
deriving DecidableEq

inductive TxStatus
  | PENDING
  | COMPLETED
  | FAILED
  | CANCELLED
deriving DecidableEq

/-- The Transaction document createTransaction persists. -/
structure TransactionRec where
  type : TxType
  asset : AssetKind
  amount : ℚ
  previousBalance : ℚ
  newBalance : ℚ
  status : TxStatus
deriving DecidableEq

/-- createTransaction, src/unnamed/part_000 lines 12-92. The acct argument is
Account.findById(user); on success the updated account and the persisted
COMPLETED transaction are both committed; an error means the mongoose
transaction aborted and neither write persisted. -/
def createTransaction (acct : Option Account) (type : TxType)
    (asset : AssetKind) (amount : ℚ) :
    Except String (Account × TransactionRec) :=
  match acct with
  | none => .error "Account not found"
  | some account =>
    match asset with
    | .CASH =>
      let previousBalance := account.AMOUNTFC
      match type with
      | .DEPOSIT =>
        let newBalance := previousBalance + amount
        .ok ({ account with AMOUNTFC := newBalance },
          { type := type, asset := asset, amount := amount
            previousBalance := previousBalance, newBalance := newBalance
            status := .COMPLETED })
      | .WITHDRAWAL =>
        if previousBalance < amount then
          .error "Insufficient cash balance for withdrawal"
        else
          let newBalance := previousBalance - amount
          .ok ({ account with AMOUNTFC := newBalance },
            { type := type, asset := asset, amount := amount
              previousBalance := previousBalance, newBalance := newBalance
              status := .COMPLETED })
    | .GOLD =>
      let previousBalance := account.METAL_WT
      match type with
      | .DEPOSIT =>
        let newBalance := previousBalance + amount
        .ok ({ account with METAL_WT := newBalance },
          { type := type, asset := asset, amount := amount
            previousBalance := previousBalance, newBalance := newBalance
            status := .COMPLETED })
      | .WITHDRAWAL =>
        if previousBalance < amount then
          .error "Insufficient gold balance for withdrawal"
        else
          let newBalance := previousBalance - amount
          .ok ({ account with METAL_WT := newBalance },
            { type := type, asset := asset, amount := amount
              previousBalance := previousBalance, newBalance := newBalance
              status := .COMPLETED })

/-- The inbound webhook form fields (src/unnamed/part_003 line 22). The
handler destructures only Body, From and ProfileName; MessageSid is carried
by the delivery but never read. -/
structure WebhookRequest where
  Body : Option String
  From : Option String
  MessageSid : Option String
  ProfileName : Option String
deriving DecidableEq

/-- The per-phone session state the handler touches. -/
structure UserSession where
  state : String
  userName : Option String
  accountId : Option String
deriving DecidableEq

/-- A fresh session as getUserSession creates it on first contact. -/
def freshSession : UserSession :=
  { state := "START", userName := none, accountId := none }

/-- The response classes of handleWhatsAppWebhook; the processed constructor
is the default branch that hands Body to processUserInput. -/
inductive WebhookReply
  | badRequest
  | accessDenied
  | mainMenu
  | greeting
  | balanceInfo
  | cancelMsg (hadPendingOrder : Bool)
  | priceInfo
  | ordersInfo
  | refreshMsg
  | processed (body : String)
deriving DecidableEq

/-- toLowerCase over the character data (kernel-computable form of
String.toLower). -/
def lowerStr (s : String) : String := ⟨s.data.map Char.toLower⟩

/-- trim over the character data (kernel-computable form of String.trim). -/
def trimStr (s : String) : String :=
  ⟨((s.data.dropWhile Char.isWhitespace).reverse.dropWhile
      Char.isWhitespace).reverse⟩

/-- Session store keyed by phone number. -/
def SessionStore := List (String × UserSession)

/-- Store the (mutated) session object back under its phone key. -/
def setSession (store : List (String × UserSession)) (phone : String)
    (s : UserSession) : List (String × UserSession) :=
  (phone, s) :: store.filter (fun kv => kv.1 ≠ phone)

/-- resetSession evicts the session for the phone (sessionService is outside
src; only the eviction matters here and no claim depends on its details). -/
def removeSession (store : List (String × UserSession)) (phone : String) :
    List (String × UserSession) :=
  store.filter (fun kv => kv.1 ≠ phone)

/-- handleWhatsAppWebhook, src/unnamed/part_003 lines 19-129. auth is
isAuthorizedUser (the accountId when the phone is registered); process is
processUserInput from messageService (taken as a parameter: the claim about
this handler does not depend on the state machine it dispatches to); store
holds the per-phone sessions. Returns the reply sent back and the new store.
The handler reads req.Body, req.From and req.ProfileName only. -/
def handleWhatsAppWebhook (auth : String → Option String)
    (process : String → UserSession → String × UserSession)
    (store : List (String × UserSession)) (req : WebhookRequest) :
    WebhookReply × List (String × UserSession) :=
  match req.Body, req.From with
  | some body, some sender =>
    match auth sender with
    | none => (.accessDenied, store)
    | some accountId =>
      let s0 := (store.lookup sender).getD freshSession
      let s1 := { s0 with accountId := some accountId }
      let s2 :=
        match req.ProfileName with
        | some pn => if s1.userName = none then { s1 with userName := some pn } else s1
        | none => s1
      let trimmed := lowerStr (trimStr body)
      if trimmed = "reset" then (.mainMenu, removeSession store sender)
      else if trimmed = "hi" ∨ trimmed = "hello" ∨ trimmed = "start" then
        (.greeting, setSession store sender { s2 with state := "MAIN_MENU" })
      else if trimmed = "balance" ∨ trimmed = "5" then
        (.balanceInfo, setSession store sender s2)
      else if trimmed = "cancel" then
        (.cancelMsg (s2.state = "CONFIRM_ORDER"),
          setSession store sender { s2 with state := "MAIN_MENU" })
      else if trimmed = "price" ∨ trimmed = "prices" then
        (.priceInfo, setSession store sender s2)
      else if trimmed = "orders" ∨ trimmed = "positions" ∨ trimmed = "4" then
        (.ordersInfo, setSession store sender s2)
      else if trimmed = "refresh" then (.refreshMsg, setSession store sender s2)
      else if trimmed = "menu" ∨ trimmed = "help" then
        (.mainMenu, setSession store sender { s2 with state := "MAIN_MENU" })
      else
        let pr := process body s2
        (.processed pr.1, setSession store sender pr.2)
  | _, _ => (.badRequest, store)

/-- Balance of the named asset on an account. -/
def assetBalance (a : Account) : AssetKind → ℚ
  | .CASH => a.AMOUNTFC
  | .GOLD => a.METAL_WT

/-- Claim-side settlement formula, following the spec wording: the order
requiredMargin when set, otherwise the closing gold weight for BUY and the
entry gold weight for SELL. It differs from the code (settlementOf) exactly
when requiredMargin is set to 0, which JS truthiness treats as unset. -/
def claimSettlement (o : Order) (spot : ℚ) : ℚ :=
  match o.requiredMargin with
  | some m => m
  | none =>
    match o.type with
    | .BUY => goldWeight spot o.volume
    | .SELL => goldWeight o.openingPrice o.volume

/-- Claim-side client profit: (clientClosingPrice - openingPrice) x volume for
BUY, negated for SELL, where clientClosingPrice is the spread-adjusted closing
quote. -/
def claimClientProfit (a : Account) (o : Order) (spot : ℚ) : ℚ :=
  match o.type with
  | .BUY => (quoteForClose a .BUY spot - o.openingPrice) * o.volume
  | .SELL => (o.openingPrice - quoteForClose a .SELL spot) * o.volume

/-- Positive part as the service writes it. -/
theorem posPart_eq_max (q : ℚ) : (if q > 0 then q else 0) = max q 0 := by
  rcases le_or_lt q 0 with h | h
  · simp [not_lt.mpr h, max_eq_right h]
  · simp [h, max_eq_left (le_of_lt h)]

/-- C9: a WITHDRAWAL whose amount exceeds the asset balance fails with the
insufficient-balance error (so, the mongoose transaction having aborted,
no Transaction document is persisted and the account is unchanged); a
WITHDRAWAL within the balance commits the account with that asset balance
decreased by exactly the amount, together with a COMPLETED Transaction
recording previousBalance and newBalance. -/
theorem C9_withdrawal_guard (a : Account) (asset : AssetKind) (amount : ℚ) :
    (assetBalance a asset < amount →
      createTransaction (some a) .WITHDRAWAL asset amount =
        .error (match asset with
          | .CASH => "Insufficient cash balance for withdrawal"
          | .GOLD => "Insufficient gold balance for withdrawal")) ∧
    (amount ≤ assetBalance a asset →
      createTransaction (some a) .WITHDRAWAL asset amount =
        .ok ((match asset with
          | .CASH => { a with AMOUNTFC := a.AMOUNTFC - amount }
          | .GOLD => { a with METAL_WT := a.METAL_WT - amount }),
          { type := .WITHDRAWAL, asset := asset, amount := amount
            previousBalance := assetBalance a asset
            newBalance := assetBalance a asset - amount
            status := .COMPLETED })) := by
  constructor
  · intro h
    cases asset <;> simp [createTransaction, assetBalance] at h ⊢ <;> simp [h]
  · intro h
    cases asset
    · have h2 : ¬ a.AMOUNTFC < amount := not_lt.mpr h
      simp [createTransaction, assetBalance, h2]
    · have h2 : ¬ a.METAL_WT < amount := not_lt.mpr h
      simp [createTransaction, assetBalance, h2]

/-- C9 witness: with a 500 cash balance, a withdrawal of 600 fails with the
insufficient-balance error and a withdrawal of 200 commits balance 300. -/
theorem C9_witness :
    ((500 : ℚ) < 600 ∧
      createTransaction
          (some { AMOUNTFC := 500, METAL_WT := 0, askSpread := 0, bidSpread := 0 })
          .WITHDRAWAL .CASH 600 =
        .error "Insufficient cash balance for withdrawal") ∧
    ((200 : ℚ) ≤ 500 ∧
      createTransaction
          (some { AMOUNTFC := 500, METAL_WT := 0, askSpread := 0, bidSpread := 0 })
          .WITHDRAWAL .CASH 200 =
        .ok ({ AMOUNTFC := 300, METAL_WT := 0, askSpread := 0, bidSpread := 0 },
          { type := .WITHDRAWAL, asset := .CASH, amount := 200
            previousBalance := 500, newBalance := 300, status := .COMPLETED })) := by
  constructor
  · exact ⟨by norm_num,
      by
        have h :=
          (C9_withdrawal_guard
            { AMOUNTFC := 500, METAL_WT := 0, askSpread := 0, bidSpread := 0 }
            .CASH 600).1 (by norm_num [assetBalance])
        simpa [assetBalance] using h⟩
  · exact ⟨by norm_num,
      by
        have h :=
          (C9_withdrawal_guard
            { AMOUNTFC := 500, METAL_WT := 0, askSpread := 0, bidSpread := 0 }
            .CASH 200).2 (by norm_num [assetBalance])
        have e : (500 : ℚ) - 200 = 300 := by norm_num
        simpa [assetBalance, e] using h⟩

/-- C10: a close (orderStatus CLOSED) on an order whose orderNo matches no LP
position still commits; the order is saved with status CLOSED and its profit
written, while the account balances are untouched and no ledger entry is
appended for the close leg. -/
theorem C10_close_without_lp_frame (a : Account) (o : Order)
    (upd : UpdateRequest) (now : ℤ)
    (hClosed : upd.orderStatus = some .CLOSED) :
    closeCommitted (updateTradeStatus (some o) (some a) none upd now) = true ∧
    closeCash (updateTradeStatus (some o) (some a) none upd now) =
      some a.AMOUNTFC ∧
    closeMetal (updateTradeStatus (some o) (some a) none upd now) =
      some a.METAL_WT ∧
    closeLedger (updateTradeStatus (some o) (some a) none upd now) = some [] ∧
    closeOrderStatus (updateTradeStatus (some o) (some a) none upd now) =
      some .CLOSED ∧
    closeOrderProfit (updateTradeStatus (some o) (some a) none upd now) =
      some (toFixed2 (match o.type with
        | .BUY =>
          goldWeight (closeSpot upd o) o.volume -
            goldWeight o.openingPrice o.volume
        | .SELL =>
          goldWeight o.openingPrice o.volume -
            goldWeight (closeSpot upd o) o.volume)) := by
  cases hty : o.type <;>
    simp [updateTradeStatus, hClosed, hty, closeCommitted, closeCash,
      closeMetal, closeLedger, closeOrderStatus, closeOrderProfit]

/-- Account used by the C10 witness. -/
def exAccount10 : Account :=
  { AMOUNTFC := 9000, METAL_WT := 3, askSpread := 1, bidSpread := 1 }

/-- Order used by the C10 witness. -/
def exOrder10 : Order :=
  { orderNo := 2, type := .BUY, volume := 1, price := 3000
    openingPrice := 3001, closingPrice := none, closingDate := none
    orderStatus := .PROCESSING, profit := 0, comment := none
    requiredMargin := none }

/-- Update request used by the C10 witness. -/
def exUpd10 : UpdateRequest :=
  { orderStatus := some .CLOSED, closingPrice := some 3100
    closingDate := none, profit := none, comment := none, price := none }

/-- C10 witness: closing a BUY order with no companion LP position at spot
3100 commits, leaves the balances 9000 and 3, writes no ledger entry, and
stores the CLOSED status with the gold-weight profit. -/
theorem C10_witness :
    exUpd10.orderStatus = some OrderStatus.CLOSED ∧
    (closeCommitted (updateTradeStatus (some exOrder10) (some exAccount10)
        none exUpd10 0) = true ∧
      closeCash (updateTradeStatus (some exOrder10) (some exAccount10)
        none exUpd10 0) = some exAccount10.AMOUNTFC ∧
      closeMetal (updateTradeStatus (some exOrder10) (some exAccount10)
        none exUpd10 0) = some exAccount10.METAL_WT ∧
      closeLedger (updateTradeStatus (some exOrder10) (some exAccount10)
        none exUpd10 0) = some [] ∧
      closeOrderStatus (updateTradeStatus (some exOrder10) (some exAccount10)
        none exUpd10 0) = some .CLOSED ∧
      closeOrderProfit (updateTradeStatus (some exOrder10) (some exAccount10)
        none exUpd10 0) =
        some (toFixed2 (match exOrder10.type with
          | .BUY =>
            goldWeight (closeSpot exUpd10 exOrder10) exOrder10.volume -
              goldWeight exOrder10.openingPrice exOrder10.volume
          | .SELL =>
            goldWeight exOrder10.openingPrice exOrder10.volume -
              goldWeight (closeSpot exUpd10 exOrder10) exOrder10.volume))) :=
  ⟨rfl, C10_close_without_lp_frame exAccount10 exOrder10 exUpd10 0 rfl⟩

/-- Account used by the C2 theorems. -/
def exAccount2 : Account :=
  { AMOUNTFC := 10000, METAL_WT := 1, askSpread := 1 / 2, bidSpread := 10 }

/-- Order used by the C2 theorems. -/
def exOrder2 : Order :=
  { orderNo := 1, type := .BUY, volume := 1, price := 3000
    openingPrice := 3000, closingPrice := none, closingDate := none
    orderStatus := .PROCESSING, profit := 0, comment := none
    requiredMargin := none }

/-- Update request used by the C2 theorems. -/
def exUpd2 : UpdateRequest :=
  { orderStatus := some .CLOSED, closingPrice := some 3100
    closingDate := none, profit := none, comment := none, price := none }

/-- C2 counterexample: closing the BUY order opened at 3000 at spot 3100 with
bidSpread 10 persists 1377.79 (the gold-weight profit, rounded), not the
claimed client profit (3090 - 3000) x 1 = 90. -/
theorem C2_counterexample :
    closeOrderProfit (updateTradeStatus (some exOrder2) (some exAccount2)
        none exUpd2 0) ≠
      some (toFixed2
        (claimClientProfit exAccount2 exOrder2 (closeSpot exUpd2 exOrder2))) := by
  norm_num [closeOrderProfit, updateTradeStatus, claimClientProfit, closeSpot,
    quoteForClose, goldWeight, toFixed2, truthy, TROY_OUNCE_GRAMS,
    GOLD_CONVERSION_FACTOR, TTB_FACTOR, exAccount2, exOrder2, exUpd2]

/-- C2 amended: on every close (orderStatus CLOSED) of a found order with a
found account, whether or not an LP position exists, the profit persisted on
the order is profitValue = closingGoldWeightValue - entryGoldWeightValue for
BUY (negated for SELL), rounded to 2 decimal places, where both gold weights
are taken at the raw (spread-free) prices. -/
theorem C2_profit_persisted_is_gold_weight_profit (a : Account) (o : Order)
    (lpQ : Option LPPosition) (upd : UpdateRequest) (now : ℤ)
    (hClosed : upd.orderStatus = some .CLOSED) :
    closeOrderProfit (updateTradeStatus (some o) (some a) lpQ upd now) =
      some (toFixed2 (match o.type with
        | .BUY =>
          goldWeight (closeSpot upd o) o.volume -
            goldWeight o.openingPrice o.volume
        | .SELL =>
          goldWeight o.openingPrice o.volume -
            goldWeight (closeSpot upd o) o.volume)) := by
  cases lpQ <;> cases hty : o.type <;>
    simp [updateTradeStatus, hClosed, hty, closeOrderProfit]

/-- LP position used by the C2 witness. -/
def exLP2 : LPPosition :=
  { positionId := 1, type := .BUY, volume := 1, entryPrice := 3000
    currentPrice := 3000, closingPrice := none, closeDate := none
    status := .OPEN, profit := 0 }

/-- C2 witness: closing the example BUY order persists the rounded
gold-weight profit. -/
theorem C2_witness :
    exUpd2.orderStatus = some OrderStatus.CLOSED ∧
    closeOrderProfit (updateTradeStatus (some exOrder2) (some exAccount2)
        (some exLP2) exUpd2 0) =
      some (toFixed2 (match exOrder2.type with
        | .BUY =>
          goldWeight (closeSpot exUpd2 exOrder2) exOrder2.volume -
            goldWeight exOrder2.openingPrice exOrder2.volume
        | .SELL =>
          goldWeight exOrder2.openingPrice exOrder2.volume -
            goldWeight (closeSpot exUpd2 exOrder2) exOrder2.volume)) :=
  ⟨rfl, C2_profit_persisted_is_gold_weight_profit exAccount2 exOrder2 _ exUpd2 0 rfl⟩

/-- C1: a close that sets orderStatus CLOSED on an order whose LP position
exists commits cash := cash + settlement + max(clientProfit, 0), where the
settlement is order.requiredMargin when set (on schema-conforming orders the
field is never set, and a stored 0 would be treated as unset by the JS
truthiness test, hence the hypothesis excluding some 0) and otherwise the
closing gold weight for BUY and the entry gold weight for SELL; the metal
balance loses the volume for BUY and gains it for SELL. -/
theorem C1_close_settlement_and_balances (a : Account) (o : Order)
    (lp : LPPosition) (upd : UpdateRequest) (now : ℤ)
    (hClosed : upd.orderStatus = some .CLOSED)
    (hrm : o.requiredMargin ≠ some 0) :
    closeCash (updateTradeStatus (some o) (some a) (some lp) upd now) =
      some (a.AMOUNTFC + claimSettlement o (closeSpot upd o) +
        max (claimClientProfit a o (closeSpot upd o)) 0) ∧
    closeMetal (updateTradeStatus (some o) (some a) (some lp) upd now) =
      some (match o.type with
        | .BUY => a.METAL_WT - o.volume
        | .SELL => a.METAL_WT + o.volume) := by
  cases hrm2 : o.requiredMargin with
  | none =>
    cases hty : o.type <;>
      simp [updateTradeStatus, hClosed, hty, hrm2, settlementOf,
        claimSettlement, claimClientProfit, closeCash, closeMetal,
        posPart_eq_max]
  | some m =>
    have hm : ¬ m = 0 := by
      intro e
      exact hrm (by rw [hrm2, e])
    cases hty : o.type <;>
      simp [updateTradeStatus, hClosed, hty, hrm2, hm, settlementOf,
        claimSettlement, claimClientProfit, closeCash, closeMetal,
        posPart_eq_max]

/-- Account used by the C1 witness. -/
def exAccount1 : Account :=
  { AMOUNTFC := 10000, METAL_WT := 5, askSpread := 1 / 2, bidSpread := 1 / 2 }

/-- Order used by the C1 witness. -/
def exOrder1 : Order :=
  { orderNo := 4, type := .BUY, volume := 2, price := 3000
    openingPrice := 6001 / 2, closingPrice := none, closingDate := none
    orderStatus := .PROCESSING, profit := 0, comment := none
    requiredMargin := none }

/-- LP position used by the C1 witness. -/
def exLP1 : LPPosition :=
  { positionId := 4, type := .BUY, volume := 2, entryPrice := 3000
    currentPrice := 3000, closingPrice := none, closeDate := none
    status := .OPEN, profit := 0 }

/-- Update request used by the C1 witness. -/
def exUpd1 : UpdateRequest :=
  { orderStatus := some .CLOSED, closingPrice := some 3100
    closingDate := none, profit := none, comment := none, price := none }

/-- C1 witness: the example BUY close satisfies both hypotheses and the two
balance equations. -/
theorem C1_witness :
    (exUpd1.orderStatus = some OrderStatus.CLOSED ∧
      exOrder1.requiredMargin ≠ some 0) ∧
    (closeCash (updateTradeStatus (some exOrder1) (some exAccount1)
        (some exLP1) exUpd1 0) =
      some (exAccount1.AMOUNTFC + claimSettlement exOrder1 (closeSpot exUpd1 exOrder1) +
        max (claimClientProfit exAccount1 exOrder1 (closeSpot exUpd1 exOrder1)) 0) ∧
    closeMetal (updateTradeStatus (some exOrder1) (some exAccount1)
        (some exLP1) exUpd1 0) =
      some (match exOrder1.type with
        | .BUY => exAccount1.METAL_WT - exOrder1.volume
        | .SELL => exAccount1.METAL_WT + exOrder1.volume)) :=
  ⟨⟨rfl, by decide⟩,
    C1_close_settlement_and_balances exAccount1 exOrder1 exLP1 exUpd1 0 rfl
      (by decide)⟩

/-- Account used by the C3 counterexample. -/
def exAccount3 : Account :=
  { AMOUNTFC := 10000, METAL_WT := 0, askSpread := 0, bidSpread := 0 }

/-- Trade request without requiredMargin used by the C3 counterexample. -/
def exTrade3 : TradeRequest :=
  { orderNo := 1, type := .BUY, volume := 1, price := 3000
    requiredMargin := none }

/-- C3 counterexample: opening a BUY of 1 at spot 3000 with no requiredMargin
in the request leaves the cash balance at 10000; the claimed fallback
goldWeightValue(clientPrice, volume) would deduct about 41333.66. -/
theorem C3_counterexample :
    openCash (createTrade (some exAccount3) exTrade3) ≠
      some (exAccount3.AMOUNTFC -
        goldWeight (quoteForOpen exAccount3 exTrade3.type exTrade3.price)
          exTrade3.volume) := by
  norm_num [openCash, createTrade, quoteForOpen, goldWeight, toFixed2,
    TROY_OUNCE_GRAMS, GOLD_CONVERSION_FACTOR, TTB_FACTOR, exAccount3,
    exTrade3]

/-- C3 amended: the margin createTrade deducts is the request requiredMargin
when supplied and 0 otherwise (never the gold-weight value); the committed
cash balance is the old balance minus that margin and the metal balance gains
the volume for BUY and loses it for SELL, both stored rounded to 2 decimal
places by the toFixed(2) write. -/
theorem C3_margin_deducted_is_request_margin_or_zero (a : Account)
    (td : TradeRequest) :
    openCash (createTrade (some a) td) =
      some (toFixed2 (a.AMOUNTFC - (td.requiredMargin).getD 0)) ∧
    openMetal (createTrade (some a) td) =
      some (toFixed2 (match td.type with
        | .BUY => a.METAL_WT + td.volume
        | .SELL => a.METAL_WT - td.volume)) := by
  cases hty : td.type <;> simp [createTrade, openCash, openMetal, hty]

/-- Account used by the C4 theorems. -/
def exAccount4 : Account :=
  { AMOUNTFC := 10000, METAL_WT := 10, askSpread := 1 / 2, bidSpread := 1 / 2 }

/-- Trade request used by the C4 theorems. -/
def exTrade4 : TradeRequest :=
  { orderNo := 7, type := .BUY, volume := 1, price := 3000
    requiredMargin := some 500 }

/-- Update request used by the C4 theorems. -/
def exUpd4 : UpdateRequest :=
  { orderStatus := some .CLOSED, closingPrice := some 3000
    closingDate := some 5, profit := none, comment := none, price := none }

/-- C4 counterexample: opening a BUY of 1 at spot 3000 with spreads 0.5/0.5
and closing at the same spot stores 13.78 on the LP position, while the exact
spread-capture sum is 10713384/777575 (about 13.7778): the stored profit is
the 2-decimal rounding of the sum, not the sum itself. -/
theorem C4_counterexample :
    closeLpProfit (openThenClose exAccount4 exTrade4 exUpd4 0) ≠
      some (|goldWeight 3000 1 - goldWeight (6001 / 2) 1| +
        |goldWeight 3000 1 - goldWeight (5999 / 2) 1|) := by
  norm_num [closeLpProfit, openThenClose, createTrade, updateTradeStatus,
    quoteForOpen, quoteForClose, closeSpot, settlementOf, goldWeight, toFixed2,
    truthy, TROY_OUNCE_GRAMS, GOLD_CONVERSION_FACTOR, TTB_FACTOR, exAccount4,
    exTrade4, exUpd4, abs_of_nonneg, abs_of_nonpos]

/-- C4 amended: for a trade opened at spot S and closed at nonzero spot S2,
the profit stored on the LP position equals the spread captured on the opening
leg plus the spread captured on the closing leg, rounded to 2 decimal places
by the toFixed(2) store: the opening leg compares the LP entry weight at S
with the order opening weight at the stored (2-decimal) client opening price,
the closing leg compares the LP closing weight at S2 with the order closing
weight at the spread-adjusted client closing price. -/
theorem C4_lp_profit_spread_capture_rounded (a : Account) (td : TradeRequest)
    (upd : UpdateRequest) (now : ℤ) (s2 : ℚ)
    (hClosed : upd.orderStatus = some .CLOSED)
    (hcp : upd.closingPrice = some s2) (hs2 : s2 ≠ 0) (hs : td.price ≠ 0) :
    closeLpProfit (openThenClose a td upd now) =
      some (toFixed2
        (|goldWeight td.price td.volume -
            goldWeight (toFixed2 (quoteForOpen a td.type td.price)) td.volume| +
         |goldWeight s2 td.volume -
            goldWeight (quoteForClose a td.type s2) td.volume|)) := by
  cases hty : td.type <;>
    simp [openThenClose, createTrade, updateTradeStatus, hClosed, hcp, hs2,
      hty, closeSpot, truthy, closeLpProfit, quoteForOpen, quoteForClose]

/-- C4 witness: the example round trip at spot 3000 satisfies the hypotheses
and stores the rounded spread-capture sum. -/
theorem C4_witness :
    (exUpd4.orderStatus = some OrderStatus.CLOSED ∧
      exUpd4.closingPrice = some 3000 ∧ (3000 : ℚ) ≠ 0 ∧
      exTrade4.price ≠ 0) ∧
    closeLpProfit (openThenClose exAccount4 exTrade4 exUpd4 0) =
      some (toFixed2
        (|goldWeight exTrade4.price exTrade4.volume -
            goldWeight (toFixed2 (quoteForOpen exAccount4 exTrade4.type
              exTrade4.price)) exTrade4.volume| +
         |goldWeight 3000 exTrade4.volume -
            goldWeight (quoteForClose exAccount4 exTrade4.type 3000)
              exTrade4.volume|)) :=
  ⟨⟨rfl, rfl, by decide, by decide⟩,
    C4_lp_profit_spread_capture_rounded exAccount4 exTrade4 exUpd4 0 3000 rfl
      rfl (by decide) (by decide)⟩

/-- Account used by the C5 counterexample. -/
def exAccount5 : Account :=
  { AMOUNTFC := 10000, METAL_WT := 0, askSpread := 0, bidSpread := 0 }

/-- Trade request at the 3-decimal spot 3000.004 used by the C5
counterexample. -/
def exTrade5 : TradeRequest :=
  { orderNo := 9, type := .BUY, volume := 1, price := 3000004 / 1000
    requiredMargin := none }

/-- Update request closing at the same spot used by the C5 counterexample. -/
def exUpd5 : UpdateRequest :=
  { orderStatus := some .CLOSED, closingPrice := some (3000004 / 1000)
    closingDate := none, profit := none, comment := none, price := none }

/-- C5 counterexample: with zero spreads and volume 1, opening a BUY at spot
3000.004 and closing at the same spot yields clientProfit 0.004, not the
claimed 0 = -(askSpread + bidSpread) x volume, because the opening price was
stored rounded to 3000.00. -/
theorem C5_counterexample :
    closeClientProfit (openThenClose exAccount5 exTrade5 exUpd5 0) ≠
      some (-(exAccount5.askSpread + exAccount5.bidSpread) *
        exTrade5.volume) := by
  norm_num [closeClientProfit, openThenClose, createTrade, updateTradeStatus,
    quoteForOpen, quoteForClose, closeSpot, settlementOf, goldWeight, toFixed2,
    truthy, TROY_OUNCE_GRAMS, GOLD_CONVERSION_FACTOR, TTB_FACTOR, exAccount5,
    exTrade5, exUpd5]

/-- C5 amended: a round trip at the same nonzero spot S with volume v yields
clientProfit = (quoteForClose S - toFixed2(quoteForOpen S)) x v for BUY
(mirrored for SELL): the claimed -(askSpread + bidSpread) x v appears exactly
when the spread-adjusted opening price survives the 2-decimal toFixed store
unchanged. -/
theorem C5_round_trip_spread_loss (a : Account) (td : TradeRequest)
    (upd : UpdateRequest) (now : ℤ)
    (hClosed : upd.orderStatus = some .CLOSED)
    (hcp : upd.closingPrice = some td.price) (hS : td.price ≠ 0)
    (hv : 0 < td.volume) :
    closeClientProfit (openThenClose a td upd now) =
      some (match td.type with
        | .BUY =>
          (quoteForClose a .BUY td.price -
            toFixed2 (quoteForOpen a .BUY td.price)) * td.volume
        | .SELL =>
          (toFixed2 (quoteForOpen a .SELL td.price) -
            quoteForClose a .SELL td.price) * td.volume) ∧
    (toFixed2 (quoteForOpen a td.type td.price) =
        quoteForOpen a td.type td.price →
      closeClientProfit (openThenClose a td upd now) =
        some (-(a.askSpread + a.bidSpread) * td.volume)) := by
  have hmain : closeClientProfit (openThenClose a td upd now) =
      some (match td.type with
        | .BUY =>
          (quoteForClose a .BUY td.price -
            toFixed2 (quoteForOpen a .BUY td.price)) * td.volume
        | .SELL =>
          (toFixed2 (quoteForOpen a .SELL td.price) -
            quoteForClose a .SELL td.price) * td.volume) := by
    cases hty : td.type <;>
      simp [openThenClose, createTrade, updateTradeStatus, hClosed, hcp, hS,
        hty, closeSpot, truthy, closeClientProfit, quoteForOpen, quoteForClose]
  refine ⟨hmain, ?_⟩
  intro hexact
  rw [hmain]
  cases hty : td.type
  · rw [hty] at hexact
    simp only [hty, quoteForOpen, quoteForClose] at hexact ⊢
    rw [hexact]
    exact congrArg some (by ring)
  · rw [hty] at hexact
    simp only [hty, quoteForOpen, quoteForClose] at hexact ⊢
    rw [hexact]
    exact congrArg some (by ring)

/-- Account with spreads 0.25/0.35 used by the C5 witness. -/
def exAccount5w : Account :=
  { AMOUNTFC := 10000, METAL_WT := 0, askSpread := 1 / 4, bidSpread := 7 / 20 }

/-- Trade request at the 2-decimal-exact spot 3000 used by the C5 witness. -/
def exTrade5w : TradeRequest :=
  { orderNo := 9, type := .BUY, volume := 2, price := 3000
    requiredMargin := none }

/-- Update request closing at the same spot used by the C5 witness. -/
def exUpd5w : UpdateRequest :=
  { orderStatus := some .CLOSED, closingPrice := some 3000
    closingDate := none, profit := none, comment := none, price := none }

/-- C5 witness: a round trip at spot 3000 with spreads 0.25/0.35 and volume 2
satisfies the hypotheses, and since 3000.25 is 2-decimal exact the client
profit is -(0.25 + 0.35) x 2. -/
theorem C5_witness :
    (exUpd5w.orderStatus = some OrderStatus.CLOSED ∧
      exUpd5w.closingPrice = some exTrade5w.price ∧
      exTrade5w.price ≠ 0 ∧ 0 < exTrade5w.volume) ∧
    closeClientProfit (openThenClose exAccount5w exTrade5w exUpd5w 0) =
      some (-(exAccount5w.askSpread + exAccount5w.bidSpread) *
        exTrade5w.volume) :=
  ⟨⟨rfl, rfl, by decide, by decide⟩,
    (C5_round_trip_spread_loss exAccount5w exTrade5w exUpd5w 0 rfl rfl
        (by decide) (by decide)).2
      (by norm_num [toFixed2, quoteForOpen, exAccount5w, exTrade5w])⟩

/-- Account used by the C6 theorems. -/
def exAccount6 : Account :=
  { AMOUNTFC := 1000, METAL_WT := 0, askSpread := 0, bidSpread := 0 }

/-- C6 counterexample: a requested volume of 0.5 with a 1000 balance (base 50,
margin 20 percent, no open orders) satisfies the claimed success condition
(volume positive, remaining balance nonnegative) yet the service rejects it,
because parseInt truncates 0.5 to 0. -/
theorem C6_counterexample :
    (0 : ℚ) < 1 / 2 ∧
    0 ≤ exAccount6.AMOUNTFC -
      ((1 / 2 * 50 + 1 / 2 * 50 * (20 / 100)) +
        ((totalProcessingVolume [] : ℚ) * 50 +
          (totalProcessingVolume [] : ℚ) * 50 * (20 / 100))) ∧
    (checkSufficientBalance (some exAccount6) [] (1 / 2) 50 20).ok = false := by
  refine ⟨by norm_num, by norm_num [exAccount6, totalProcessingVolume, jsTrunc], ?_⟩
  norm_num [checkSufficientBalance, BalanceCheckResult.ok, exAccount6, jsTrunc]

/-- C6 amended: for an account with a truthy (nonzero) balance, the check
succeeds if and only if the parseInt-truncated volume is positive and the
remaining balance, computed from the truncated volumes, is nonnegative; and
whenever the truncated volume is positive the reported maxAllowedVolume is the
floor of (balance - existing total) over (base x (1 + pct/100)). -/
theorem C6_balance_check_truncated_iff (a : Account) (orders : List Order)
    (volume base pct : ℚ) (ha : a.AMOUNTFC ≠ 0) :
    ((checkSufficientBalance (some a) orders volume base pct).ok = true ↔
      (0 < jsTrunc volume ∧
        0 ≤ a.AMOUNTFC -
          (((jsTrunc volume : ℚ) * base +
              (jsTrunc volume : ℚ) * base * (pct / 100)) +
            ((totalProcessingVolume orders : ℚ) * base +
              (totalProcessingVolume orders : ℚ) * base * (pct / 100))))) ∧
    (0 < jsTrunc volume →
      (checkSufficientBalance (some a) orders volume base pct).maxVolume =
        some ⌊(a.AMOUNTFC -
            ((totalProcessingVolume orders : ℚ) * base +
              (totalProcessingVolume orders : ℚ) * base * (pct / 100))) /
          (base * (1 + pct / 100))⌋) := by
  constructor
  · by_cases hv : jsTrunc volume ≤ 0
    · have hnv : ¬ 0 < jsTrunc volume := not_lt.mpr hv
      simp [checkSufficientBalance, ha, hv, hnv, BalanceCheckResult.ok]
    · simp [checkSufficientBalance, ha, hv, BalanceCheckResult.ok,
        decide_eq_true_eq, and_comm]
  · intro h0
    have hv : ¬ jsTrunc volume ≤ 0 := not_le.mpr h0
    simp [checkSufficientBalance, ha, hv, BalanceCheckResult.maxVolume]

/-- C6 witness: volume 3 against the 1000 balance with base 50 and pct 20
passes (remaining 820) and the reported maximum volume is 16. -/
theorem C6_witness :
    (checkSufficientBalance (some exAccount6) [] 3 50 20).ok = true ∧
    (checkSufficientBalance (some exAccount6) [] 3 50 20).maxVolume =
      some 16 := by
  have h := C6_balance_check_truncated_iff exAccount6 [] 3 50 20
    (by norm_num [exAccount6])
  constructor
  · exact h.1.mpr (by norm_num [jsTrunc, totalProcessingVolume, exAccount6])
  · have h2 := h.2 (by norm_num [jsTrunc])
    rw [h2]
    norm_num [totalProcessingVolume, exAccount6]

/-- Account used by the C7 theorem, in the state left by a first close. -/
def exAccount7 : Account :=
  { AMOUNTFC := 12000, METAL_WT := 0, askSpread := 1 / 2, bidSpread := 1 / 2 }

/-- Order already CLOSED by a first close, used by the C7 theorem. -/
def exOrder7 : Order :=
  { orderNo := 3, type := .BUY, volume := 1, price := 3100
    openingPrice := 6001 / 2, closingPrice := some (6199 / 2)
    closingDate := some 1, orderStatus := .CLOSED, profit := 13778 / 100
    comment := none, requiredMargin := none }

/-- LP position already CLOSED by a first close, used by the C7 theorem. -/
def exLP7 : LPPosition :=
  { positionId := 3, type := .BUY, volume := 1, entryPrice := 3000
    currentPrice := 3100, closingPrice := some 3100, closeDate := some 1
    status := .CLOSED, profit := 1378 / 100 }

/-- Second CLOSED update request used by the C7 theorem. -/
def exUpd7 : UpdateRequest :=
  { orderStatus := some .CLOSED, closingPrice := some 3100
    closingDate := none, profit := none, comment := none, price := none }

/-- C7: re-closing an order that is already CLOSED is not rejected: the call
commits (no Conflict error exists anywhere in updateTradeStatus), credits the
settlement plus the recomputed client profit to the cash balance a second
time, and appends four more ledger entries. -/
theorem C7_double_close_commits_again :
    closeCommitted (updateTradeStatus (some exOrder7) (some exAccount7)
      (some exLP7) exUpd7 2) = true ∧
    closeCash (updateTradeStatus (some exOrder7) (some exAccount7)
        (some exLP7) exUpd7 2) =
      some (exAccount7.AMOUNTFC + goldWeight 3100 1 +
        ((3100 - 1 / 2) - 6001 / 2) * 1) ∧
    closeCash (updateTradeStatus (some exOrder7) (some exAccount7)
        (some exLP7) exUpd7 2) ≠ some exAccount7.AMOUNTFC ∧
    (closeLedger (updateTradeStatus (some exOrder7) (some exAccount7)
        (some exLP7) exUpd7 2)).map List.length = some 4 := by
  refine ⟨?_, ?_, ?_, ?_⟩ <;>
    norm_num [closeCommitted, closeCash, closeLedger, updateTradeStatus,
      quoteForClose, closeSpot, settlementOf, truthy, goldWeight,
      TROY_OUNCE_GRAMS, GOLD_CONVERSION_FACTOR, TTB_FACTOR, exAccount7,
      exOrder7, exLP7, exUpd7]

/-- Authorization map for the C8 theorem: one registered number. -/
def exAuth8 : String → Option String :=
  fun s => if s = "whatsapp:+971500000001" then some "acct1" else none

/-- processUserInput stand-in for the C8 theorem: replies with the body. -/
def exProcess8 : String → UserSession → String × UserSession :=
  fun b s => (b, s)

/-- First delivery (order command) used by the C8 theorem. -/
def exReq8a : WebhookRequest :=
  { Body := some "BUY 1", From := some "whatsapp:+971500000001"
    MessageSid := some "X1", ProfileName := none }

/-- Second delivery, 2 seconds later, with the same MessageSid. -/
def exReq8b : WebhookRequest :=
  { Body := some "Y", From := some "whatsapp:+971500000001"
    MessageSid := some "X1", ProfileName := none }

/-- C8: the webhook handler never deduplicates: its result does not depend on
MessageSid at all (the field is never read and no dedup cache exists in the
repository), and concretely a second delivery bearing the same MessageSid X1
as the first is processed in full rather than answered with an empty
response. -/
theorem C8_webhook_never_deduplicates :
    (∀ (auth : String → Option String)
        (process : String → UserSession → String × UserSession)
        (store : List (String × UserSession)) (req : WebhookRequest)
        (sid1 sid2 : Option String),
      handleWhatsAppWebhook auth process store
          { req with MessageSid := sid1 } =
        handleWhatsAppWebhook auth process store
          { req with MessageSid := sid2 }) ∧
    (handleWhatsAppWebhook exAuth8 exProcess8 [] exReq8a).1 =
      .processed "BUY 1" ∧
    (handleWhatsAppWebhook exAuth8 exProcess8
        (handleWhatsAppWebhook exAuth8 exProcess8 [] exReq8a).2
        exReq8b).1 = .processed "Y" := by
  refine ⟨fun auth process store req sid1 sid2 => rfl, ?_, ?_⟩ <;> decide

end CrmLive
